import Mathlib

/-!
Verification of the AINative Strapi MCP server (src/index.js, v1.1.0 class).

The file shallowly embeds the pure computational content of the server:
slug generation, reading-time computation, the authentication cache,
the call-tool dispatch boundary, the per-operation request builders and
payload builders, and the summary-mode response trimming.  Strings are
modelled by Lean `String`/`List Char` (JavaScript's UTF-16 code units are
modelled by Unicode scalar values; all characters relevant to the claims
are ASCII, where the two coincide).  JavaScript values that may be absent
are modelled with `Option`, and JavaScript truthiness is modelled
explicitly per type.
-/

namespace StrapiMcp

/-- The character class of JavaScript's regex `\s` (and of `String.prototype.trim`):
space, tab, line feed, vertical tab, form feed, carriage return, and the
Unicode space separators recognised by ECMAScript. -/
def isJsSpace (c : Char) : Bool :=
  c == ' ' || c == '\t' || c == '\n' || c == '\x0b' || c == '\x0c' || c == '\r' ||
  c == '\u00A0' || c == '\u1680' || (decide ('\u2000' ≤ c) && decide (c ≤ '\u200A')) ||
  c == '\u2028' || c == '\u2029' || c == '\u202F' || c == '\u205F' || c == '\u3000' ||
  c == '\uFEFF'

/-- The characters kept by `generateSlug`'s `.replace(/[^a-z0-9\s-]/g, '')`. -/
def slugKeep (c : Char) : Bool :=
  (decide ('a' ≤ c) && decide (c ≤ 'z')) || (decide ('0' ≤ c) && decide (c ≤ '9')) ||
  isJsSpace c || c == '-'

def isHyphenChar (c : Char) : Bool := c == '-'

/-- Drop a trailing run of characters satisfying `p`. -/
def dropTrailing (p : Char → Bool) (l : List Char) : List Char :=
  (l.reverse.dropWhile p).reverse

/-- `String.prototype.trim`: drop leading and trailing JavaScript whitespace. -/
def trimJs (l : List Char) : List Char :=
  dropTrailing isJsSpace (l.dropWhile isJsSpace)

/-- Replace every maximal run of characters satisfying `p` by the single
character `rep`: the effect of `.replace(/p+/g, rep)`.  The boolean flag
records whether the previous character was inside a run. -/
def collapseRunsAux (p : Char → Bool) (rep : Char) : Bool → List Char → List Char
  | _, [] => []
  | inRun, c :: cs =>
    if p c then
      if inRun then collapseRunsAux p rep true cs
      else rep :: collapseRunsAux p rep true cs
    else c :: collapseRunsAux p rep false cs

def collapseRuns (p : Char → Bool) (rep : Char) (l : List Char) : List Char :=
  collapseRunsAux p rep false l

/-- `generateSlug` from src/index.js: lowercase, drop characters outside
`[a-z0-9\s-]`, trim, turn whitespace runs into hyphens, collapse hyphen runs,
and strip leading/trailing hyphens.  (JavaScript's `toLowerCase` is modelled
per character by `Char.toLower`, with which it agrees on ASCII; the
characters surviving the filter are ASCII either way.) -/
def generateSlug (title : String) : String :=
  String.mk (dropTrailing isHyphenChar
    (List.dropWhile isHyphenChar
      (collapseRuns isHyphenChar '-'
        (collapseRuns isJsSpace '-'
          (trimJs ((title.data.map Char.toLower).filter slugKeep))))))

/-- A JavaScript argument value, as far as `generateSlug`'s guard
`if (!title || typeof title !== 'string') return ''` can distinguish it. -/
inductive JsArg where
  | vUndefined
  | vNull
  | vBool (b : Bool)
  | vNum (n : Int)
  | vStr (s : String)
deriving DecidableEq, Repr

def JsArg.isStr : JsArg → Bool
  | JsArg.vStr _ => true
  | _ => false

/-- `generateSlug` applied to an arbitrary JavaScript value: a missing, null,
falsy or non-string argument returns the empty string. -/
def generateSlugJs : JsArg → String
  | JsArg.vStr s => if s = "" then "" else generateSlug s
  | _ => ""

/-- `true` when the list has no two consecutive hyphens. -/
def noDoubleHyphen : List Char → Bool
  | [] => true
  | [_] => true
  | a :: b :: rest => !(a == '-' && b == '-') && noDoubleHyphen (b :: rest)

/-! Basic lemmas about the slug pipeline. -/

theorem mem_collapseRunsAux {p : Char → Bool} {rep : Char} {c : Char} :
    ∀ {b : Bool} {l : List Char}, c ∈ collapseRunsAux p rep b l →
      c = rep ∨ (c ∈ l ∧ p c = false) := by
  intro b l
  induction l generalizing b with
  | nil => intro h; simp [collapseRunsAux] at h
  | cons a t ih =>
    intro h
    cases hpa : p a with
    | false =>
      simp [collapseRunsAux, hpa] at h
      rcases h with h1 | h2
      · subst h1; exact Or.inr ⟨List.mem_cons_self _ _, hpa⟩
      · rcases ih h2 with h3 | ⟨h4, h5⟩
        · exact Or.inl h3
        · exact Or.inr ⟨List.mem_cons_of_mem _ h4, h5⟩
    | true =>
      cases b with
      | false =>
        simp [collapseRunsAux, hpa] at h
        rcases h with h1 | h2
        · exact Or.inl h1
        · rcases ih h2 with h3 | ⟨h4, h5⟩
          · exact Or.inl h3
          · exact Or.inr ⟨List.mem_cons_of_mem _ h4, h5⟩
      | true =>
        simp [collapseRunsAux, hpa] at h
        rcases ih h with h3 | ⟨h4, h5⟩
        · exact Or.inl h3
        · exact Or.inr ⟨List.mem_cons_of_mem _ h4, h5⟩

theorem mem_collapseRuns {p : Char → Bool} {rep : Char} {c : Char} {l : List Char}
    (h : c ∈ collapseRuns p rep l) : c = rep ∨ (c ∈ l ∧ p c = false) :=
  mem_collapseRunsAux h

theorem mem_dropTrailing {p : Char → Bool} {c : Char} {l : List Char}
    (h : c ∈ dropTrailing p l) : c ∈ l := by
  unfold dropTrailing at h
  rw [List.mem_reverse] at h
  have := List.dropWhile_subset p h
  rwa [List.mem_reverse] at this

theorem mem_trimJs {c : Char} {l : List Char} (h : c ∈ trimJs l) : c ∈ l := by
  unfold trimJs at h
  exact List.dropWhile_subset _ (mem_dropTrailing h)

theorem head_collapseRunsAux_true {p : Char → Bool} {rep : Char} :
    ∀ {l : List Char} {c : Char},
      (collapseRunsAux p rep true l).head? = some c → p c = false := by
  intro l
  induction l with
  | nil => intro c h; simp [collapseRunsAux] at h
  | cons a t ih =>
    intro c h
    cases hpa : p a with
    | true =>
      simp only [collapseRunsAux, hpa, if_true] at h
      exact ih h
    | false =>
      simp [collapseRunsAux, hpa] at h
      subst h
      exact hpa

theorem noDoubleHyphen_cons_of {a : Char} {l : List Char}
    (h1 : noDoubleHyphen l = true)
    (h2 : ∀ c, l.head? = some c → (a == '-' && c == '-') = false) :
    noDoubleHyphen (a :: l) = true := by
  cases l with
  | nil => rfl
  | cons b t =>
    have hb := h2 b rfl
    simp only [noDoubleHyphen, hb, Bool.not_false, Bool.true_and]
    exact h1

theorem noDoubleHyphen_head {a c : Char} {l : List Char}
    (h : noDoubleHyphen (a :: l) = true) (hc : l.head? = some c) :
    (a == '-' && c == '-') = false := by
  cases l with
  | nil => simp at hc
  | cons b t =>
    have hb : c = b := by simpa using hc.symm
    subst hb
    simp only [noDoubleHyphen, Bool.and_eq_true, Bool.not_eq_true'] at h
    exact h.1

theorem noDoubleHyphen_tail {a : Char} {l : List Char}
    (h : noDoubleHyphen (a :: l) = true) : noDoubleHyphen l = true := by
  cases l with
  | nil => rfl
  | cons b t =>
    simp only [noDoubleHyphen, Bool.and_eq_true] at h
    exact h.2

theorem noDoubleHyphen_collapse {b : Bool} {l : List Char} :
    noDoubleHyphen (collapseRunsAux isHyphenChar '-' b l) = true := by
  induction l generalizing b with
  | nil => rfl
  | cons a t ih =>
    cases hpa : isHyphenChar a with
    | true =>
      cases b with
      | true =>
        simp only [collapseRunsAux, hpa, if_true]
        exact ih
      | false =>
        simp only [collapseRunsAux, hpa, if_true, if_false]
        refine noDoubleHyphen_cons_of ih ?_
        intro c hc
        have := head_collapseRunsAux_true hc
        simp only [isHyphenChar] at this
        simp [this]
    | false =>
      simp only [collapseRunsAux, hpa, if_false]
      refine noDoubleHyphen_cons_of ih ?_
      intro c _
      simp only [isHyphenChar] at hpa
      simp [hpa]

theorem noDoubleHyphen_dropWhile {p : Char → Bool} :
    ∀ {l : List Char}, noDoubleHyphen l = true → noDoubleHyphen (l.dropWhile p) = true := by
  intro l
  induction l with
  | nil => intro h; exact h
  | cons a t ih =>
    intro h
    rw [List.dropWhile_cons]
    split
    · exact ih (noDoubleHyphen_tail h)
    · exact h

theorem noDoubleHyphen_append_left :
    ∀ {l₁ l₂ : List Char}, noDoubleHyphen (l₁ ++ l₂) = true → noDoubleHyphen l₁ = true := by
  intro l₁
  induction l₁ with
  | nil => intro l₂ _; rfl
  | cons a t ih =>
    intro l₂ h
    rw [List.cons_append] at h
    refine noDoubleHyphen_cons_of (ih (noDoubleHyphen_tail h)) ?_
    intro c hc
    cases t with
    | nil => simp at hc
    | cons b t2 =>
      have hb : c = b := by simpa using hc.symm
      subst hb
      exact noDoubleHyphen_head h rfl

theorem noDoubleHyphen_dropTrailing {p : Char → Bool} {l : List Char}
    (h : noDoubleHyphen l = true) : noDoubleHyphen (dropTrailing p l) = true := by
  obtain ⟨t, ht⟩ := List.dropWhile_suffix (l := l.reverse) p
  have hl : (l.reverse.dropWhile p).reverse ++ t.reverse = l := by
    have h2 := congrArg List.reverse ht
    simpa [List.reverse_append] using h2
  unfold dropTrailing
  exact noDoubleHyphen_append_left (by rw [hl]; exact h)

theorem head?_dropTrailing {p : Char → Bool} {l : List Char} {c : Char}
    (h : (dropTrailing p l).head? = some c) : l.head? = some c := by
  obtain ⟨t, ht⟩ := List.dropWhile_suffix (l := l.reverse) p
  have hl : (l.reverse.dropWhile p).reverse ++ t.reverse = l := by
    have h2 := congrArg List.reverse ht
    simpa [List.reverse_append] using h2
  unfold dropTrailing at h
  rw [← hl]
  cases hA : (l.reverse.dropWhile p).reverse with
  | nil => rw [hA] at h; simp at h
  | cons x xs =>
    rw [hA] at h
    simp only [List.head?_cons] at h
    simpa using h

/-- C1: for every string title, generateSlug is deterministic (equal inputs give
equal outputs) and its result — the title lowercased, stripped of characters
outside the kept class, and hyphen-joined — contains no character outside
the ranges a-z and 0-9 and the hyphen. -/
theorem C1_generateSlug_deterministic_alphabet :
    ∀ (s t : String), (s = t → generateSlug s = generateSlug t) ∧
      ∀ c ∈ (generateSlug t).data,
        ('a' ≤ c ∧ c ≤ 'z') ∨ ('0' ≤ c ∧ c ≤ '9') ∨ c = '-' := by
  intro s t
  constructor
  · intro h; rw [h]
  · intro c hc
    have h1 : c ∈ List.dropWhile isHyphenChar
        (collapseRuns isHyphenChar '-'
          (collapseRuns isJsSpace '-'
            (trimJs ((t.data.map Char.toLower).filter slugKeep)))) :=
      mem_dropTrailing hc
    have h2 := List.dropWhile_subset (l := collapseRuns isHyphenChar '-'
        (collapseRuns isJsSpace '-'
          (trimJs ((t.data.map Char.toLower).filter slugKeep)))) isHyphenChar h1
    rcases mem_collapseRuns h2 with heq | ⟨h3, hnh⟩
    · exact Or.inr (Or.inr heq)
    · rcases mem_collapseRuns h3 with heq2 | ⟨h4, hns⟩
      · rw [heq2] at hnh
        simp [isHyphenChar] at hnh
      · rcases List.mem_filter.mp (mem_trimJs h4) with ⟨_, hkeep⟩
        have hhy : (c == '-') = false := hnh
        simp only [slugKeep, hns, hhy, Bool.or_false] at hkeep
        have hkeep2 : ('a' ≤ c ∧ c ≤ 'z') ∨ ('0' ≤ c ∧ c ≤ '9') := by
          simpa using hkeep
        rcases hkeep2 with h | h
        · exact Or.inl h
        · exact Or.inr (Or.inl h)

/-- Witness for C1 at the concrete title "Hello, World!". -/
theorem C1_generateSlug_witness :
    generateSlug "Hello, World!" = generateSlug "Hello, World!" ∧
      (('a' ≤ 'h' ∧ 'h' ≤ 'z') ∨ ('0' ≤ 'h' ∧ 'h' ≤ '9') ∨ 'h' = '-') :=
  ⟨(C1_generateSlug_deterministic_alphabet "Hello, World!" "Hello, World!").1 rfl,
   (C1_generateSlug_deterministic_alphabet "Hello, World!" "Hello, World!").2 'h'
     (by decide)⟩

/-- C9: generateSlug is total over arbitrary JavaScript arguments — a missing,
null, or non-string argument yields the empty string — and for every string
input the result never begins or ends with a hyphen and never contains two
consecutive hyphens. -/
theorem C9_generateSlug_total_trimmed :
    ∀ (v : JsArg) (t : String),
      (JsArg.isStr v = false → generateSlugJs v = "") ∧
      (∀ c, (generateSlug t).data.head? = some c → c ≠ '-') ∧
      (∀ c, (generateSlug t).data.getLast? = some c → c ≠ '-') ∧
      noDoubleHyphen (generateSlug t).data = true := by
  intro v t
  refine ⟨?_, ?_, ?_, ?_⟩
  · intro hv
    cases v with
    | vUndefined => rfl
    | vNull => rfl
    | vBool b => rfl
    | vNum n => rfl
    | vStr st => simp [JsArg.isStr] at hv
  · intro c hc
    have hM := head?_dropTrailing (p := isHyphenChar) hc
    have hd := List.head?_dropWhile_not isHyphenChar
      (collapseRuns isHyphenChar '-'
        (collapseRuns isJsSpace '-'
          (trimJs ((t.data.map Char.toLower).filter slugKeep))))
    rw [hM] at hd
    intro heq
    rw [heq] at hd
    simp [isHyphenChar] at hd
  · intro c hc
    have hc2 : ((List.dropWhile isHyphenChar
        (collapseRuns isHyphenChar '-'
          (collapseRuns isJsSpace '-'
            (trimJs ((t.data.map Char.toLower).filter slugKeep))))).reverse.dropWhile
              isHyphenChar).reverse.getLast? = some c := hc
    rw [List.getLast?_reverse] at hc2
    have hd := List.head?_dropWhile_not isHyphenChar
      (List.dropWhile isHyphenChar
        (collapseRuns isHyphenChar '-'
          (collapseRuns isJsSpace '-'
            (trimJs ((t.data.map Char.toLower).filter slugKeep))))).reverse
    rw [hc2] at hd
    intro heq
    rw [heq] at hd
    simp [isHyphenChar] at hd
  · exact noDoubleHyphen_dropTrailing (noDoubleHyphen_dropWhile noDoubleHyphen_collapse)

/-- Witness for C9 at the null argument and the concrete title "a-b". -/
theorem C9_generateSlug_witness :
    generateSlugJs JsArg.vNull = "" ∧ 'a' ≠ '-' ∧ 'b' ≠ '-' ∧
      noDoubleHyphen (generateSlug "a-b").data = true :=
  ⟨(C9_generateSlug_total_trimmed JsArg.vNull "a-b").1 rfl,
   (C9_generateSlug_total_trimmed JsArg.vNull "a-b").2.1 'a' (by decide),
   (C9_generateSlug_total_trimmed JsArg.vNull "a-b").2.2.1 'b' (by decide),
   (C9_generateSlug_total_trimmed JsArg.vNull "a-b").2.2.2⟩

/-! ## Word counting and reading time (createBlogPost / updateBlogPost) -/

/-- Count the maximal runs of characters satisfying `p`: the number of
matches of the regex `/p+/g`.  The flag records whether the previous
character was inside a run. -/
def countRunsAux (p : Char → Bool) : Bool → List Char → Nat
  | _, [] => 0
  | inRun, c :: cs =>
    if p c then
      if inRun then countRunsAux p true cs else 1 + countRunsAux p true cs
    else countRunsAux p false cs

def countRuns (p : Char → Bool) (l : List Char) : Nat := countRunsAux p false l

/-- The length of `content.split(/\s+/)` in JavaScript: 1 for the empty
string (split never returns an empty array here), and otherwise one more
than the number of maximal whitespace runs. -/
def jsSplitWsLen (s : String) : Nat :=
  if s.data.isEmpty then 1 else countRuns isJsSpace s.data + 1

/-- `Math.ceil(content.split(/\s+/).length / 200)` from createBlogPost and
updateBlogPost (ceiling division written on Nat). -/
def readingTime (content : String) : Nat := (jsSplitWsLen content + 199) / 200

/-- The number of whitespace-separated words of a string: the number of
maximal runs of non-whitespace characters. -/
def wordCount (s : String) : Nat := countRuns (fun c => !isJsSpace c) s.data

/-- The reading time the spec sentence describes: ceil(word_count / 200). -/
def specReadingTime (s : String) : Nat := (wordCount s + 199) / 200

/-- JavaScript truthiness of an optional string argument. -/
def strTruthy : Option String → Bool
  | none => false
  | some s => s != ""

/-- JavaScript truthiness of an optional number argument. -/
def intTruthy : Option Int → Bool
  | none => false
  | some n => n != 0

/-- JavaScript truthiness of an optional array argument (arrays are always
truthy, even when empty). -/
def listTruthy : Option (List Int) → Bool
  | none => false
  | some _ => true

/-- `v || d` for an optional string `v` and a string default. -/
def jsOrStr (v : Option String) (d : String) : String :=
  match v with
  | some s => if s = "" then d else s
  | none => d

/-- `v || null` for an optional string `v`. -/
def jsOrNullStr (v : Option String) : Option String :=
  match v with
  | some s => if s = "" then none else some s
  | none => none

structure CreateBlogPostArgs where
  title : String
  slug : Option String
  content : String
  description : Option String
  author_id : Option Int
  category_id : Option Int
  tag_ids : Option (List Int)
  published_date : Option String
  publishedAt : Option String
deriving Repr, DecidableEq

structure BlogPostPayload where
  title : String
  slug : String
  content : String
  excerpt : Option String
  author : Option Int
  category : Option Int
  tags : Option (List Int)
  reading_time : Nat
  published_date : String
  publishedAt : Option String
deriving Repr, DecidableEq

/-- The payload createBlogPost sends to the backend; `nowIso` stands for
`new Date().toISOString()`. -/
def createBlogPost (nowIso : String) (args : CreateBlogPostArgs) : BlogPostPayload :=
  { title := args.title
    slug := jsOrStr args.slug (generateSlug args.title)
    content := args.content
    excerpt := args.description
    author := args.author_id
    category := args.category_id
    tags := args.tag_ids
    reading_time := readingTime args.content
    published_date := jsOrStr args.published_date nowIso
    publishedAt := jsOrNullStr args.publishedAt }

/-- A JSON value appearing in an update payload. -/
inductive JVal where
  | jstr (s : String)
  | jnum (n : Int)
  | jarr (xs : List Int)
deriving Repr, DecidableEq

structure UpdateBlogPostArgs where
  title : Option String
  slug : Option String
  content : Option String
  description : Option String
  published_date : Option String
  category_id : Option Int
  tag_ids : Option (List Int)
deriving Repr, DecidableEq

/-- The partial payload updateBlogPost sends: one key per truthy argument,
in the assignment order of the source, with the slug auto-generated from a
truthy title when no truthy slug argument is given. -/
def updateBlogPost (args : UpdateBlogPostArgs) : List (String × JVal) :=
  (if strTruthy args.title then
      ("title", JVal.jstr (args.title.getD "")) ::
        (if strTruthy args.slug then []
         else [("slug", JVal.jstr (generateSlug (args.title.getD "")))])
    else []) ++
  (if strTruthy args.slug then [("slug", JVal.jstr (args.slug.getD ""))] else []) ++
  (if strTruthy args.content then
      [("content", JVal.jstr (args.content.getD "")),
       ("reading_time", JVal.jnum (readingTime (args.content.getD "")))]
    else []) ++
  (if strTruthy args.description then
      [("excerpt", JVal.jstr (args.description.getD ""))] else []) ++
  (if strTruthy args.published_date then
      [("published_date", JVal.jstr (args.published_date.getD ""))] else []) ++
  (if intTruthy args.category_id then
      [("category", JVal.jnum (args.category_id.getD 0))] else []) ++
  (if listTruthy args.tag_ids then
      [("tags", JVal.jarr (args.tag_ids.getD []))] else [])

structure UpdateTutorialArgs where
  title : Option String
  slug : Option String
  content : Option String
  description : Option String
  difficulty : Option String
  duration : Option Int
deriving Repr, DecidableEq

/-- The partial payload updateTutorial sends. -/
def updateTutorial (args : UpdateTutorialArgs) : List (String × JVal) :=
  (if strTruthy args.title then
      ("title", JVal.jstr (args.title.getD "")) ::
        (if strTruthy args.slug then []
         else [("slug", JVal.jstr (generateSlug (args.title.getD "")))])
    else []) ++
  (if strTruthy args.slug then [("slug", JVal.jstr (args.slug.getD ""))] else []) ++
  (if strTruthy args.content then [("content", JVal.jstr (args.content.getD ""))] else []) ++
  (if strTruthy args.description then
      [("description", JVal.jstr (args.description.getD ""))] else []) ++
  (if strTruthy args.difficulty then
      [("difficulty", JVal.jstr (args.difficulty.getD ""))] else []) ++
  (if intTruthy args.duration then
      [("duration", JVal.jnum (args.duration.getD 0))] else [])

structure UpdateEventArgs where
  title : Option String
  slug : Option String
  description : Option String
  start_date : Option String
  end_date : Option String
  location : Option String
  registration_url : Option String
deriving Repr, DecidableEq

/-- The partial payload updateEvent sends. -/
def updateEvent (args : UpdateEventArgs) : List (String × JVal) :=
  (if strTruthy args.title then
      ("title", JVal.jstr (args.title.getD "")) ::
        (if strTruthy args.slug then []
         else [("slug", JVal.jstr (generateSlug (args.title.getD "")))])
    else []) ++
  (if strTruthy args.slug then [("slug", JVal.jstr (args.slug.getD ""))] else []) ++
  (if strTruthy args.description then
      [("description", JVal.jstr (args.description.getD ""))] else []) ++
  (if strTruthy args.start_date then
      [("start_date", JVal.jstr (args.start_date.getD ""))] else []) ++
  (if strTruthy args.end_date then
      [("end_date", JVal.jstr (args.end_date.getD ""))] else []) ++
  (if strTruthy args.location then
      [("location", JVal.jstr (args.location.getD ""))] else []) ++
  (if strTruthy args.registration_url then
      [("registration_url", JVal.jstr (args.registration_url.getD ""))] else [])

theorem countRunsAux_words (p : Char → Bool) :
    ∀ l : List Char,
      ((∀ c, l.getLast? = some c → p c = false) →
        countRunsAux (fun c => !p c) true l = countRunsAux p false l) ∧
      (l ≠ [] → (∀ c, l.getLast? = some c → p c = false) →
        countRunsAux (fun c => !p c) false l = countRunsAux p true l + 1) := by
  intro l
  induction l with
  | nil =>
    constructor
    · intro _; rfl
    · intro h; exact absurd rfl h
  | cons a t ih =>
    have hlast : t ≠ [] → ∀ c, t.getLast? = some c → (a :: t).getLast? = some c := by
      intro ht c hc
      cases t with
      | nil => exact absurd rfl ht
      | cons b t2 => rw [List.getLast?_cons_cons]; exact hc
    cases hpa : p a with
    | true =>
      have hkey : (∀ c, (a :: t).getLast? = some c → p c = false) →
          t ≠ [] ∧ ∀ c, t.getLast? = some c → p c = false := by
        intro hl
        have htne : t ≠ [] := by
          intro he
          subst he
          have h2 := hl a (by simp)
          rw [hpa] at h2
          exact Bool.noConfusion h2
        exact ⟨htne, fun c hc => hl c (hlast htne c hc)⟩
      constructor
      · intro hl
        obtain ⟨htne, hlt⟩ := hkey hl
        simp only [countRunsAux, hpa, Bool.not_true, Bool.false_eq_true, if_false,
          if_true]
        rw [(ih.2) htne hlt]
        omega
      · intro _ hl
        obtain ⟨htne, hlt⟩ := hkey hl
        simp only [countRunsAux, hpa, Bool.not_true, Bool.false_eq_true, if_false,
          if_true]
        exact (ih.2) htne hlt
    | false =>
      have hlt : (∀ c, (a :: t).getLast? = some c → p c = false) →
          ∀ c, t.getLast? = some c → p c = false := by
        intro hl c hc
        cases t with
        | nil => simp at hc
        | cons b t2 => exact hl c (by rw [List.getLast?_cons_cons]; exact hc)
      constructor
      · intro hl
        simp only [countRunsAux, hpa, Bool.not_false, Bool.false_eq_true, if_false,
          if_true]
        exact ih.1 (hlt hl)
      · intro _ hl
        simp only [countRunsAux, hpa, Bool.not_false, Bool.false_eq_true, if_false,
          if_true]
        rw [ih.1 (hlt hl)]
        omega

theorem countRuns_add_one_eq_words {p : Char → Bool} {l : List Char}
    (hne : l ≠ [])
    (hhd : ∀ c, l.head? = some c → p c = false)
    (hlast : ∀ c, l.getLast? = some c → p c = false) :
    countRunsAux p false l + 1 = countRunsAux (fun c => !p c) false l := by
  cases l with
  | nil => exact absurd rfl hne
  | cons a t =>
    have hpa : p a = false := hhd a rfl
    have hlt : ∀ c, t.getLast? = some c → p c = false := by
      intro c hc
      cases t with
      | nil => simp at hc
      | cons b t2 => exact hlast c (by rw [List.getLast?_cons_cons]; exact hc)
    simp only [countRunsAux, hpa, Bool.not_false, Bool.false_eq_true, if_false, if_true]
    rw [(countRunsAux_words p t).1 hlt]
    omega

/-- C2 counterexample: a create-blog-post call with empty content puts
reading_time = 1 in the payload, while ceil(word_count / 200) for the zero
whitespace-separated words of the empty content is 0. -/
theorem C2_readingTime_counterexample :
    (createBlogPost "2025-01-01T00:00:00.000Z"
        { title := "t", slug := none, content := "", description := none,
          author_id := some 1, category_id := none, tag_ids := none,
          published_date := none, publishedAt := none }).reading_time = 1 ∧
      specReadingTime "" = 0 := by
  constructor <;> rfl

/-- C2 amended: the reading_time in the payload equals
ceil(content.split-on-whitespace length / 200), where the split length is 1
for empty content and otherwise one more than the number of whitespace runs;
it equals ceil(word_count / 200) as claimed exactly when the content is
nonempty and neither begins nor ends with whitespace. -/
theorem C2_readingTime_amended :
    ∀ (nowIso : String) (args : CreateBlogPostArgs) (uargs : UpdateBlogPostArgs),
      (createBlogPost nowIso args).reading_time = (jsSplitWsLen args.content + 199) / 200 ∧
      (strTruthy uargs.content = true →
        ("reading_time", JVal.jnum (readingTime (uargs.content.getD ""))) ∈
          updateBlogPost uargs) ∧
      (∀ str : String, str.data ≠ [] →
        (∀ c, str.data.head? = some c → isJsSpace c = false) →
        (∀ c, str.data.getLast? = some c → isJsSpace c = false) →
        jsSplitWsLen str = wordCount str ∧
          readingTime str = specReadingTime str) := by
  intro nowIso args uargs
  refine ⟨rfl, ?_, ?_⟩
  · intro h
    simp only [updateBlogPost, h, if_true]
    simp [List.mem_append]
  · intro str hne hhd hlast
    have hmain : jsSplitWsLen str = wordCount str := by
      unfold jsSplitWsLen wordCount countRuns
      rw [if_neg (by simpa [List.isEmpty_iff] using hne)]
      exact countRuns_add_one_eq_words hne hhd hlast
    refine ⟨hmain, ?_⟩
    unfold readingTime specReadingTime wordCount
    rw [hmain]
    rfl

/-- Witness for C2 amended at content "hi" (one word, no surrounding whitespace). -/
theorem C2_readingTime_witness :
    (createBlogPost "2025-01-01T00:00:00.000Z" { title := "t", slug := none, content := "hi", description := none, author_id := some 1, category_id := none, tag_ids := none, published_date := none, publishedAt := none }).reading_time = (jsSplitWsLen "hi" + 199) / 200 ∧
      ("reading_time", JVal.jnum (readingTime "hi")) ∈ updateBlogPost { title := none, slug := none, content := some "hi", description := none, published_date := none, category_id := none, tag_ids := none } ∧
      jsSplitWsLen "hi" = wordCount "hi" := by
  have T := C2_readingTime_amended "2025-01-01T00:00:00.000Z" { title := "t", slug := none, content := "hi", description := none, author_id := some 1, category_id := none, tag_ids := none, published_date := none, publishedAt := none } { title := none, slug := none, content := some "hi", description := none, published_date := none, category_id := none, tag_ids := none }
  refine ⟨T.1, T.2.1 rfl, (T.2.2 "hi" (by decide) ?_ ?_).1⟩
  · intro c hc; cases hc; decide
  · intro c hc; cases hc; decide

/-- No pair in the association list carries the key `k`. -/
def keyFree (k : String) (l : List (String × JVal)) : Prop :=
  ∀ q ∈ l, q.1 ≠ k

theorem keyFree_nil {k : String} : keyFree k [] := by
  intro q hq
  simp at hq

theorem keyFree_append {k : String} {l₁ l₂ : List (String × JVal)}
    (h₁ : keyFree k l₁) (h₂ : keyFree k l₂) : keyFree k (l₁ ++ l₂) := by
  intro q hq
  rcases List.mem_append.mp hq with h | h
  · exact h₁ q h
  · exact h₂ q h

theorem keyFree_ite {k : String} {c : Prop} [Decidable c] {l₁ l₂ : List (String × JVal)}
    (h₁ : keyFree k l₁) (h₂ : keyFree k l₂) : keyFree k (if c then l₁ else l₂) := by
  split
  · exact h₁
  · exact h₂

theorem keyFree_cons {k k2 : String} {v : JVal} {l : List (String × JVal)}
    (hk : k2 ≠ k) (h : keyFree k l) : keyFree k ((k2, v) :: l) := by
  intro q hq
  rcases List.mem_cons.mp hq with h1 | h1
  · rw [h1]; exact hk
  · exact h q h1

theorem not_mem_of_keyFree {k : String} {v : JVal} {l : List (String × JVal)}
    (h : keyFree k l) : (k, v) ∉ l :=
  fun hm => h _ hm rfl

/-- C10 counterexample: updating a blog post whose only (truthy) argument is
the title "!!!" sends the payload [("title","!!!"), ("slug","")]: the slug
field is set to the empty string, so a field can be cleared through an
update even though every falsy argument is omitted. -/
theorem C10_update_counterexample :
    updateBlogPost { title := some "!!!", slug := none, content := none, description := none, published_date := none, category_id := none, tag_ids := none } = [("title", JVal.jstr "!!!"), ("slug", JVal.jstr "")] := by
  decide

/-- C10 amended: in every update operation a falsy argument contributes no
key to the payload (so no field can be cleared or zeroed by passing a falsy
argument — though a field can still be emptied indirectly, as the
counterexample's generated empty slug shows), and a truthy title without a
truthy slug puts slug = generateSlug(title) into the payload. -/
theorem C10_update_falsy_omitted :
    ∀ (b : UpdateBlogPostArgs) (t : UpdateTutorialArgs) (e : UpdateEventArgs),
      (strTruthy b.title = false → ∀ v, ("title", v) ∉ updateBlogPost b) ∧
      (strTruthy b.slug = false → strTruthy b.title = false →
        ∀ v, ("slug", v) ∉ updateBlogPost b) ∧
      (strTruthy b.content = false →
        ∀ v, ("content", v) ∉ updateBlogPost b ∧ ("reading_time", v) ∉ updateBlogPost b) ∧
      (strTruthy b.description = false → ∀ v, ("excerpt", v) ∉ updateBlogPost b) ∧
      (strTruthy b.published_date = false → ∀ v, ("published_date", v) ∉ updateBlogPost b) ∧
      (intTruthy b.category_id = false → ∀ v, ("category", v) ∉ updateBlogPost b) ∧
      (listTruthy b.tag_ids = false → ∀ v, ("tags", v) ∉ updateBlogPost b) ∧
      (strTruthy b.title = true → strTruthy b.slug = false →
        ("slug", JVal.jstr (generateSlug (b.title.getD ""))) ∈ updateBlogPost b) ∧
      (strTruthy t.title = false → ∀ v, ("title", v) ∉ updateTutorial t) ∧
      (strTruthy t.slug = false → strTruthy t.title = false →
        ∀ v, ("slug", v) ∉ updateTutorial t) ∧
      (strTruthy t.content = false → ∀ v, ("content", v) ∉ updateTutorial t) ∧
      (strTruthy t.description = false → ∀ v, ("description", v) ∉ updateTutorial t) ∧
      (strTruthy t.difficulty = false → ∀ v, ("difficulty", v) ∉ updateTutorial t) ∧
      (intTruthy t.duration = false → ∀ v, ("duration", v) ∉ updateTutorial t) ∧
      (strTruthy t.title = true → strTruthy t.slug = false →
        ("slug", JVal.jstr (generateSlug (t.title.getD ""))) ∈ updateTutorial t) ∧
      (strTruthy e.title = false → ∀ v, ("title", v) ∉ updateEvent e) ∧
      (strTruthy e.slug = false → strTruthy e.title = false →
        ∀ v, ("slug", v) ∉ updateEvent e) ∧
      (strTruthy e.description = false → ∀ v, ("description", v) ∉ updateEvent e) ∧
      (strTruthy e.start_date = false → ∀ v, ("start_date", v) ∉ updateEvent e) ∧
      (strTruthy e.end_date = false → ∀ v, ("end_date", v) ∉ updateEvent e) ∧
      (strTruthy e.location = false → ∀ v, ("location", v) ∉ updateEvent e) ∧
      (strTruthy e.registration_url = false →
        ∀ v, ("registration_url", v) ∉ updateEvent e) ∧
      (strTruthy e.title = true → strTruthy e.slug = false →
        ("slug", JVal.jstr (generateSlug (e.title.getD ""))) ∈ updateEvent e) := by
  intro b t e
  refine ⟨?_, ?_, ?_, ?_, ?_, ?_, ?_, ?_, ?_, ?_, ?_, ?_, ?_, ?_, ?_, ?_, ?_, ?_, ?_, ?_, ?_, ?_, ?_⟩
  · intro h v
    apply not_mem_of_keyFree
    simp [updateBlogPost, h]
    repeat
      first
      | exact keyFree_nil
      | apply keyFree_append
      | apply keyFree_ite
      | apply keyFree_cons (by decide)
  · intro hs ht v
    apply not_mem_of_keyFree
    simp [updateBlogPost, hs, ht]
    repeat
      first
      | exact keyFree_nil
      | apply keyFree_append
      | apply keyFree_ite
      | apply keyFree_cons (by decide)
  · intro h v
    constructor
    all_goals
      apply not_mem_of_keyFree
      simp [updateBlogPost, h]
      repeat
        first
        | exact keyFree_nil
        | apply keyFree_append
        | apply keyFree_ite
        | apply keyFree_cons (by decide)
  · intro h v
    apply not_mem_of_keyFree
    simp [updateBlogPost, h]
    repeat
      first
      | exact keyFree_nil
      | apply keyFree_append
      | apply keyFree_ite
      | apply keyFree_cons (by decide)
  · intro h v
    apply not_mem_of_keyFree
    simp [updateBlogPost, h]
    repeat
      first
      | exact keyFree_nil
      | apply keyFree_append
      | apply keyFree_ite
      | apply keyFree_cons (by decide)
  · intro h v
    apply not_mem_of_keyFree
    simp [updateBlogPost, h]
    repeat
      first
      | exact keyFree_nil
      | apply keyFree_append
      | apply keyFree_ite
      | apply keyFree_cons (by decide)
  · intro h v
    apply not_mem_of_keyFree
    simp [updateBlogPost, h]
    repeat
      first
      | exact keyFree_nil
      | apply keyFree_append
      | apply keyFree_ite
      | apply keyFree_cons (by decide)
  · intro ht hs
    simp [updateBlogPost, ht, hs]
  · intro h v
    apply not_mem_of_keyFree
    simp [updateTutorial, h]
    repeat
      first
      | exact keyFree_nil
      | apply keyFree_append
      | apply keyFree_ite
      | apply keyFree_cons (by decide)
  · intro hs ht v
    apply not_mem_of_keyFree
    simp [updateTutorial, hs, ht]
    repeat
      first
      | exact keyFree_nil
      | apply keyFree_append
      | apply keyFree_ite
      | apply keyFree_cons (by decide)
  · intro h v
    apply not_mem_of_keyFree
    simp [updateTutorial, h]
    repeat
      first
      | exact keyFree_nil
      | apply keyFree_append
      | apply keyFree_ite
      | apply keyFree_cons (by decide)
  · intro h v
    apply not_mem_of_keyFree
    simp [updateTutorial, h]
    repeat
      first
      | exact keyFree_nil
      | apply keyFree_append
      | apply keyFree_ite
      | apply keyFree_cons (by decide)
  · intro h v
    apply not_mem_of_keyFree
    simp [updateTutorial, h]
    repeat
      first
      | exact keyFree_nil
      | apply keyFree_append
      | apply keyFree_ite
      | apply keyFree_cons (by decide)
  · intro h v
    apply not_mem_of_keyFree
    simp [updateTutorial, h]
    repeat
      first
      | exact keyFree_nil
      | apply keyFree_append
      | apply keyFree_ite
      | apply keyFree_cons (by decide)
  · intro ht hs
    simp [updateTutorial, ht, hs]
  · intro h v
    apply not_mem_of_keyFree
    simp [updateEvent, h]
    repeat
      first
      | exact keyFree_nil
      | apply keyFree_append
      | apply keyFree_ite
      | apply keyFree_cons (by decide)
  · intro hs ht v
    apply not_mem_of_keyFree
    simp [updateEvent, hs, ht]
    repeat
      first
      | exact keyFree_nil
      | apply keyFree_append
      | apply keyFree_ite
      | apply keyFree_cons (by decide)
  · intro h v
    apply not_mem_of_keyFree
    simp [updateEvent, h]
    repeat
      first
      | exact keyFree_nil
      | apply keyFree_append
      | apply keyFree_ite
      | apply keyFree_cons (by decide)
  · intro h v
    apply not_mem_of_keyFree
    simp [updateEvent, h]
    repeat
      first
      | exact keyFree_nil
      | apply keyFree_append
      | apply keyFree_ite
      | apply keyFree_cons (by decide)
  · intro h v
    apply not_mem_of_keyFree
    simp [updateEvent, h]
    repeat
      first
      | exact keyFree_nil
      | apply keyFree_append
      | apply keyFree_ite
      | apply keyFree_cons (by decide)
  · intro h v
    apply not_mem_of_keyFree
    simp [updateEvent, h]
    repeat
      first
      | exact keyFree_nil
      | apply keyFree_append
      | apply keyFree_ite
      | apply keyFree_cons (by decide)
  · intro h v
    apply not_mem_of_keyFree
    simp [updateEvent, h]
    repeat
      first
      | exact keyFree_nil
      | apply keyFree_append
      | apply keyFree_ite
      | apply keyFree_cons (by decide)
  · intro ht hs
    simp [updateEvent, ht, hs]

/-- Witness for C10 at concrete update arguments (an all-absent update and a title-only update for each content kind). -/
theorem C10_update_witness :
    ("title", JVal.jstr "x") ∉ updateBlogPost { title := none, slug := none, content := none, description := none, published_date := none, category_id := none, tag_ids := none } ∧
      ("slug", JVal.jstr (generateSlug "New Title")) ∈ updateBlogPost { title := some "New Title", slug := none, content := none, description := none, published_date := none, category_id := none, tag_ids := none } ∧
      ("slug", JVal.jstr (generateSlug "Tut")) ∈ updateTutorial { title := some "Tut", slug := none, content := none, description := none, difficulty := none, duration := none } ∧
      ("slug", JVal.jstr (generateSlug "Ev")) ∈ updateEvent { title := some "Ev", slug := none, description := none, start_date := none, end_date := none, location := none, registration_url := none } := by
  obtain ⟨c1, c2, c3, c4, c5, c6, c7, c8, c9, c10, c11, c12, c13, c14, c15, c16, c17, c18, c19, c20, c21, c22, c23⟩ := C10_update_falsy_omitted { title := some "New Title", slug := none, content := none, description := none, published_date := none, category_id := none, tag_ids := none } { title := some "Tut", slug := none, content := none, description := none, difficulty := none, duration := none } { title := some "Ev", slug := none, description := none, start_date := none, end_date := none, location := none, registration_url := none }
  obtain ⟨d1, _⟩ := C10_update_falsy_omitted { title := none, slug := none, content := none, description := none, published_date := none, category_id := none, tag_ids := none } { title := none, slug := none, content := none, description := none, difficulty := none, duration := none } { title := none, slug := none, description := none, start_date := none, end_date := none, location := none, registration_url := none }
  exact ⟨d1 rfl (JVal.jstr "x"), c8 rfl rfl, c15 rfl rfl, c23 rfl rfl⟩

/-! ## Authentication (authenticate, the cached (token, expiry) pair) -/

structure AuthState where
  apiToken : Option String
  jwtToken : Option String
  tokenExpiry : Option Int
deriving Repr, DecidableEq

/-- The outcome of the POST /admin/login request, supplied by the
environment: the token in response.data.data.token, or a thrown error. -/
inductive LoginOutcome where
  | success (tok : String)
  | failure (msg : String)
deriving Repr, DecidableEq

/-- 25 * 60 * 1000 ms: tokens expire after 30 minutes and the code refreshes
5 minutes early. -/
def tokenLifetimeMs : Int := 25 * 60 * 1000

structure AuthOutcome where
  result : Except String String
  state : AuthState
  loggedIn : Bool
deriving Repr

/-- `authenticate` from src/index.js: return the API token if configured;
otherwise return the cached JWT when it and its expiry are truthy and `now`
is strictly before the expiry; otherwise log in, cache the fresh token with
expiry now + 25 minutes (or rethrow the login failure). -/
def authenticate (st : AuthState) (now : Int) (login : LoginOutcome) : AuthOutcome :=
  if strTruthy st.apiToken then
    { result := Except.ok (st.apiToken.getD ""), state := st, loggedIn := false }
  else if strTruthy st.jwtToken && intTruthy st.tokenExpiry &&
      decide (now < st.tokenExpiry.getD 0) then
    { result := Except.ok (st.jwtToken.getD ""), state := st, loggedIn := false }
  else
    match login with
    | LoginOutcome.success tok =>
        { result := Except.ok tok,
          state := { st with
                       jwtToken := some tok,
                       tokenExpiry := some (now + tokenLifetimeMs) },
          loggedIn := true }
    | LoginOutcome.failure msg =>
        { result := Except.error msg, state := st, loggedIn := true }

/-- C3: with no API token configured, authenticate returns the cached JWT
without logging in exactly when a (truthy) token is cached with a (truthy)
expiry and now is strictly before it, leaving the state unchanged; otherwise
it performs the login and caches the fresh token together with expiry
now + 25 minutes; with an API token configured it always returns it and
never touches the (token, expiry) pair. -/
theorem C3_authenticate_cache :
    ∀ (st : AuthState) (now : Int) (login : LoginOutcome),
      (strTruthy st.apiToken = true →
        authenticate st now login =
          { result := Except.ok (st.apiToken.getD ""), state := st, loggedIn := false }) ∧
      (strTruthy st.apiToken = false →
        ((authenticate st now login).loggedIn = false ↔
          (strTruthy st.jwtToken = true ∧ intTruthy st.tokenExpiry = true ∧
            now < st.tokenExpiry.getD 0))) ∧
      (strTruthy st.apiToken = false → strTruthy st.jwtToken = true →
        intTruthy st.tokenExpiry = true → now < st.tokenExpiry.getD 0 →
        authenticate st now login =
          { result := Except.ok (st.jwtToken.getD ""), state := st, loggedIn := false }) ∧
      (strTruthy st.apiToken = false →
        ¬(strTruthy st.jwtToken = true ∧ intTruthy st.tokenExpiry = true ∧
            now < st.tokenExpiry.getD 0) →
        ∀ tok, login = LoginOutcome.success tok →
          authenticate st now login =
            { result := Except.ok tok,
              state := { st with
                           jwtToken := some tok,
                           tokenExpiry := some (now + tokenLifetimeMs) },
              loggedIn := true }) := by
  intro st now login
  refine ⟨?_, ?_, ?_, ?_⟩
  · intro h
    simp [authenticate, h]
  · intro h
    unfold authenticate
    rw [if_neg (by simp [h])]
    by_cases hc : strTruthy st.jwtToken = true ∧ intTruthy st.tokenExpiry = true ∧
        now < st.tokenExpiry.getD 0
    · rw [if_pos (by simp [hc.1, hc.2.1, hc.2.2])]
      simpa using hc
    · rw [if_neg (by simpa [Bool.and_eq_true, decide_eq_true_eq] using hc)]
      cases login with
      | success tok => simpa using hc
      | failure msg => simpa using hc
  · intro h h1 h2 h3
    unfold authenticate
    rw [if_neg (by simp [h]), if_pos (by simp [h1, h2, h3])]
  · intro h hc tok hlogin
    subst hlogin
    unfold authenticate
    rw [if_neg (by simp [h]),
      if_neg (by simpa [Bool.and_eq_true, decide_eq_true_eq] using hc)]

/-- Witness for C3: an API-token state, a fresh-login state, and a
still-valid cached state. -/
theorem C3_authenticate_witness :
    authenticate { apiToken := some "api", jwtToken := none, tokenExpiry := none } 0 (LoginOutcome.success "t") = { result := Except.ok "api", state := { apiToken := some "api", jwtToken := none, tokenExpiry := none }, loggedIn := false } ∧
      authenticate { apiToken := none, jwtToken := some "jwt", tokenExpiry := some 100 } 50 (LoginOutcome.success "t") = { result := Except.ok "jwt", state := { apiToken := none, jwtToken := some "jwt", tokenExpiry := some 100 }, loggedIn := false } ∧
      authenticate { apiToken := none, jwtToken := some "jwt", tokenExpiry := some 100 } 100 (LoginOutcome.success "t2") = { result := Except.ok "t2", state := { apiToken := none, jwtToken := some "t2", tokenExpiry := some (100 + tokenLifetimeMs) }, loggedIn := true } := by
  refine ⟨?_, ?_, ?_⟩
  · exact (C3_authenticate_cache { apiToken := some "api", jwtToken := none, tokenExpiry := none } 0 (LoginOutcome.success "t")).1 rfl
  · exact (C3_authenticate_cache { apiToken := none, jwtToken := some "jwt", tokenExpiry := some 100 } 50 (LoginOutcome.success "t")).2.2.1 rfl rfl rfl (by decide)
  · exact (C3_authenticate_cache { apiToken := none, jwtToken := some "jwt", tokenExpiry := some 100 } 100 (LoginOutcome.success "t2")).2.2.2 rfl (by decide) "t2" rfl

/-! ## Tool dispatch (setupHandlers) -/

/-- The 18 tools of the call-tool switch in setupHandlers. -/
inductive ToolName where
  | createBlogPost | listBlogPosts | getBlogPost | updateBlogPostTool | publishBlogPost
  | listAuthors | listCategories | listTags
  | createTutorial | listTutorials | getTutorial | updateTutorialTool | publishTutorial
  | createEvent | listEvents | getEvent | updateEventTool | publishEvent
deriving Repr, DecidableEq

/-- The switch on request.params.name: the known tool names, in source
order; any other name falls to the default branch. -/
def parseToolName (s : String) : Option ToolName :=
  if s = "strapi_create_blog_post" then some ToolName.createBlogPost
  else if s = "strapi_list_blog_posts" then some ToolName.listBlogPosts
  else if s = "strapi_get_blog_post" then some ToolName.getBlogPost
  else if s = "strapi_update_blog_post" then some ToolName.updateBlogPostTool
  else if s = "strapi_publish_blog_post" then some ToolName.publishBlogPost
  else if s = "strapi_list_authors" then some ToolName.listAuthors
  else if s = "strapi_list_categories" then some ToolName.listCategories
  else if s = "strapi_list_tags" then some ToolName.listTags
  else if s = "strapi_create_tutorial" then some ToolName.createTutorial
  else if s = "strapi_list_tutorials" then some ToolName.listTutorials
  else if s = "strapi_get_tutorial" then some ToolName.getTutorial
  else if s = "strapi_update_tutorial" then some ToolName.updateTutorialTool
  else if s = "strapi_publish_tutorial" then some ToolName.publishTutorial
  else if s = "strapi_create_event" then some ToolName.createEvent
  else if s = "strapi_list_events" then some ToolName.listEvents
  else if s = "strapi_get_event" then some ToolName.getEvent
  else if s = "strapi_update_event" then some ToolName.updateEventTool
  else if s = "strapi_publish_event" then some ToolName.publishEvent
  else none

/-- The result of a step that can throw (`await` inside the try block). -/
inductive Outcome (α : Type) where
  | ok (a : α)
  | thrown (msg : String)

structure ContentItem where
  itemType : String
  text : String
deriving Repr, DecidableEq

/-- The value returned to the MCP client; normal handler results carry no
isError key (modelled as false). -/
structure ToolResult where
  content : List ContentItem
  isError : Bool
deriving Repr, DecidableEq

/-- The catch branch of setupHandlers. -/
def errorResult (msg : String) : ToolResult :=
  { content := [{ itemType := "text", text := "Error: " ++ msg }], isError := true }

/-- The call-tool request handler of setupHandlers: authenticate, dispatch on
the tool name, and convert anything thrown — by authentication, by the
switch default, or by the handler itself — into an error-flagged text
result. `handler` gives the outcome of the per-tool handler that would run. -/
def dispatchCallTool (name : String) (auth : Outcome String)
    (handler : ToolName → Outcome ToolResult) : ToolResult :=
  match auth with
  | Outcome.thrown msg => errorResult msg
  | Outcome.ok _ =>
    match parseToolName name with
    | some t =>
      match handler t with
      | Outcome.ok r => r
      | Outcome.thrown msg => errorResult msg
    | none => errorResult ("Unknown tool: " ++ name)

/-- C4: every failure — a thrown authentication error, a thrown handler or
backend error, or an unknown tool name — is caught at the dispatch boundary
and returned as a result with isError = true whose text content carries the
error message; the dispatcher is a total function, so no exception escapes,
and an unknown tool name in particular yields an error result, never a
normal one. -/
theorem C4_dispatch_errors_flagged :
    ∀ (name : String) (auth : Outcome String) (handler : ToolName → Outcome ToolResult),
      (∀ msg, auth = Outcome.thrown msg →
        dispatchCallTool name auth handler = errorResult msg ∧
        (dispatchCallTool name auth handler).isError = true ∧
        (dispatchCallTool name auth handler).content =
          [{ itemType := "text", text := "Error: " ++ msg }]) ∧
      (∀ a t msg, auth = Outcome.ok a → parseToolName name = some t →
        handler t = Outcome.thrown msg →
        dispatchCallTool name auth handler = errorResult msg ∧
        (dispatchCallTool name auth handler).isError = true) ∧
      (∀ a, auth = Outcome.ok a → parseToolName name = none →
        dispatchCallTool name auth handler = errorResult ("Unknown tool: " ++ name) ∧
        (dispatchCallTool name auth handler).isError = true) ∧
      (∀ a t r, auth = Outcome.ok a → parseToolName name = some t →
        handler t = Outcome.ok r →
        dispatchCallTool name auth handler = r) := by
  intro name auth handler
  refine ⟨?_, ?_, ?_, ?_⟩
  · intro msg h
    subst h
    exact ⟨rfl, rfl, rfl⟩
  · intro a t msg ha ht hh
    subst ha
    simp [dispatchCallTool, ht, hh, errorResult]
  · intro a ha ht
    subst ha
    simp [dispatchCallTool, ht, errorResult]
  · intro a t r ha ht hh
    subst ha
    simp [dispatchCallTool, ht, hh]

/-- Witness for C4: a thrown authentication error, a thrown handler error, an
unknown tool name, and a successful call, at concrete inputs. -/
theorem C4_dispatch_witness :
    dispatchCallTool "strapi_list_tags" (Outcome.thrown "bad login") (fun _ => Outcome.ok { content := [], isError := false }) = errorResult "bad login" ∧
      dispatchCallTool "strapi_list_tags" (Outcome.ok "tok") (fun _ => Outcome.thrown "HTTP 500") = errorResult "HTTP 500" ∧
      ((dispatchCallTool "strapi_frobnicate" (Outcome.ok "tok") (fun _ => Outcome.ok { content := [], isError := false })).isError = true) ∧
      dispatchCallTool "strapi_list_tags" (Outcome.ok "tok") (fun _ => Outcome.ok { content := [], isError := false }) = { content := [], isError := false } := by
  refine ⟨?_, ?_, ?_, ?_⟩
  · exact ((C4_dispatch_errors_flagged "strapi_list_tags" (Outcome.thrown "bad login") (fun _ => Outcome.ok { content := [], isError := false })).1 "bad login" rfl).1
  · exact ((C4_dispatch_errors_flagged "strapi_list_tags" (Outcome.ok "tok") (fun _ => Outcome.thrown "HTTP 500")).2.1 "tok" ToolName.listTags "HTTP 500" rfl (by decide) rfl).1
  · exact ((C4_dispatch_errors_flagged "strapi_frobnicate" (Outcome.ok "tok") (fun _ => Outcome.ok { content := [], isError := false })).2.2.1 "tok" rfl (by decide)).2
  · exact (C4_dispatch_errors_flagged "strapi_list_tags" (Outcome.ok "tok") (fun _ => Outcome.ok { content := [], isError := false })).2.2.2 "tok" ToolName.listTags { content := [], isError := false } rfl (by decide) rfl

/-! ## List-operation requests (listBlogPosts, listTutorials, listEvents) -/

/-- An outgoing HTTP request: method, URL, and query parameters (axios
`params`). -/
structure HttpRequest where
  method : String
  url : String
  query : List (String × Int)
deriving Repr, DecidableEq

/-- Arguments accepted by strapi_list_blog_posts. -/
structure ListBlogPostsArgs where
  page : Option Int
  pageSize : Option Int
  status : Option String
  category_id : Option Int
  author_id : Option Int
  tag_id : Option Int
  sort : Option String
  search : Option String
  summary : Option Bool
deriving Repr, DecidableEq

/-- Arguments accepted by strapi_list_tutorials. -/
structure ListTutorialsArgs where
  page : Option Int
  pageSize : Option Int
  status : Option String
  difficulty : Option String
  category_id : Option Int
  sort : Option String
  summary : Option Bool
deriving Repr, DecidableEq

/-- Arguments accepted by strapi_list_events. -/
structure ListEventsArgs where
  page : Option Int
  pageSize : Option Int
  status : Option String
  event_type : Option String
  upcoming : Option Bool
  sort : Option String
  summary : Option Bool
deriving Repr, DecidableEq

/-- The request listBlogPosts issues: a GET on the blog-post collection with
only page (default 1) and pageSize (default 25) as query parameters. -/
def listBlogPostsRequest (strapiUrl : String) (args : ListBlogPostsArgs) : HttpRequest :=
  { method := "GET"
    url := strapiUrl ++ "/content-manager/collection-types/api::blog-post.blog-post"
    query := [("page", args.page.getD 1), ("pageSize", args.pageSize.getD 25)] }

/-- The request listTutorials issues. -/
def listTutorialsRequest (strapiUrl : String) (args : ListTutorialsArgs) : HttpRequest :=
  { method := "GET"
    url := strapiUrl ++ "/content-manager/collection-types/api::tutorial.tutorial"
    query := [("page", args.page.getD 1), ("pageSize", args.pageSize.getD 25)] }

/-- The request listEvents issues. -/
def listEventsRequest (strapiUrl : String) (args : ListEventsArgs) : HttpRequest :=
  { method := "GET"
    url := strapiUrl ++ "/content-manager/collection-types/api::event.event"
    query := [("page", args.page.getD 1), ("pageSize", args.pageSize.getD 25)] }

/-- C5: every list request carries exactly the query keys page and pageSize,
and two list calls that agree on page and pageSize — whatever their status,
category_id, author_id, tag_id, difficulty, event_type, upcoming, sort, and
search arguments — issue identical backend requests. -/
theorem C5_list_requests_page_only :
    ∀ (u : String) (a b : ListBlogPostsArgs) (c d : ListTutorialsArgs)
      (e f : ListEventsArgs),
      ((listBlogPostsRequest u a).query.map Prod.fst = ["page", "pageSize"]) ∧
      ((listTutorialsRequest u c).query.map Prod.fst = ["page", "pageSize"]) ∧
      ((listEventsRequest u e).query.map Prod.fst = ["page", "pageSize"]) ∧
      (a.page = b.page → a.pageSize = b.pageSize →
        listBlogPostsRequest u a = listBlogPostsRequest u b) ∧
      (c.page = d.page → c.pageSize = d.pageSize →
        listTutorialsRequest u c = listTutorialsRequest u d) ∧
      (e.page = f.page → e.pageSize = f.pageSize →
        listEventsRequest u e = listEventsRequest u f) := by
  intro u a b c d e f
  refine ⟨rfl, rfl, rfl, ?_, ?_, ?_⟩
  · intro h1 h2
    simp [listBlogPostsRequest, h1, h2]
  · intro h1 h2
    simp [listTutorialsRequest, h1, h2]
  · intro h1 h2
    simp [listEventsRequest, h1, h2]

/-- Witness for C5: two blog-post list calls that differ in every filtering
argument but agree on page and pageSize issue the same request (and likewise
for tutorials and events at the default page). -/
theorem C5_list_requests_witness :
    listBlogPostsRequest "http://localhost:1337" { page := some 2, pageSize := some 10, status := some "published", category_id := some 3, author_id := some 4, tag_id := some 5, sort := some "title:asc", search := some "ai", summary := some false } = listBlogPostsRequest "http://localhost:1337" { page := some 2, pageSize := some 10, status := none, category_id := none, author_id := none, tag_id := none, sort := none, search := none, summary := some true } ∧
      listTutorialsRequest "http://localhost:1337" { page := none, pageSize := none, status := some "draft", difficulty := some "advanced", category_id := some 7, sort := some "createdAt:desc", summary := some true } = listTutorialsRequest "http://localhost:1337" { page := none, pageSize := none, status := none, difficulty := none, category_id := none, sort := none, summary := none } ∧
      listEventsRequest "http://localhost:1337" { page := none, pageSize := none, status := some "all", event_type := some "webinar", upcoming := some true, sort := some "start_date:asc", summary := some false } = listEventsRequest "http://localhost:1337" { page := none, pageSize := none, status := none, event_type := none, upcoming := none, sort := none, summary := none } := by
  refine ⟨?_, ?_, ?_⟩
  · exact (C5_list_requests_page_only "http://localhost:1337" { page := some 2, pageSize := some 10, status := some "published", category_id := some 3, author_id := some 4, tag_id := some 5, sort := some "title:asc", search := some "ai", summary := some false } { page := some 2, pageSize := some 10, status := none, category_id := none, author_id := none, tag_id := none, sort := none, search := none, summary := some true } { page := none, pageSize := none, status := none, difficulty := none, category_id := none, sort := none, summary := none } { page := none, pageSize := none, status := none, difficulty := none, category_id := none, sort := none, summary := none } { page := none, pageSize := none, status := none, event_type := none, upcoming := none, sort := none, summary := none } { page := none, pageSize := none, status := none, event_type := none, upcoming := none, sort := none, summary := none }).2.2.2.1 rfl rfl
  · exact (C5_list_requests_page_only "http://localhost:1337" { page := none, pageSize := none, status := none, category_id := none, author_id := none, tag_id := none, sort := none, search := none, summary := none } { page := none, pageSize := none, status := none, category_id := none, author_id := none, tag_id := none, sort := none, search := none, summary := none } { page := none, pageSize := none, status := some "draft", difficulty := some "advanced", category_id := some 7, sort := some "createdAt:desc", summary := some true } { page := none, pageSize := none, status := none, difficulty := none, category_id := none, sort := none, summary := none } { page := none, pageSize := none, status := none, event_type := none, upcoming := none, sort := none, summary := none } { page := none, pageSize := none, status := none, event_type := none, upcoming := none, sort := none, summary := none }).2.2.2.2.1 rfl rfl
  · exact (C5_list_requests_page_only "http://localhost:1337" { page := none, pageSize := none, status := none, category_id := none, author_id := none, tag_id := none, sort := none, search := none, summary := none } { page := none, pageSize := none, status := none, category_id := none, author_id := none, tag_id := none, sort := none, search := none, summary := none } { page := none, pageSize := none, status := none, difficulty := none, category_id := none, sort := none, summary := none } { page := none, pageSize := none, status := none, difficulty := none, category_id := none, sort := none, summary := none } { page := none, pageSize := none, status := some "all", event_type := some "webinar", upcoming := some true, sort := some "start_date:asc", summary := some false } { page := none, pageSize := none, status := none, event_type := none, upcoming := none, sort := none, summary := none }).2.2.2.2.2 rfl rfl

/-! ## Startup (StrapiMCPServer constructor) -/

/-- The environment variables the constructor reads (a set variable is a
string; an unset one is none). -/
structure Env where
  strapiUrl : Option String
  apiToken : Option String
  adminEmail : Option String
  adminPassword : Option String
deriving Repr, DecidableEq

/-- The configuration held by a successfully constructed server. -/
structure Config where
  strapiUrl : String
  apiToken : Option String
  adminEmail : Option String
  adminPassword : Option String
  jwtToken : Option String
  tokenExpiry : Option Int
deriving Repr, DecidableEq

/-- The constructor: default the backend URL, and exit with status 1
(modelled as none) when neither a truthy API token nor both truthy admin
credentials are present. -/
def startup (env : Env) : Option Config :=
  if !strTruthy env.apiToken && (!strTruthy env.adminEmail || !strTruthy env.adminPassword)
  then none
  else some
    { strapiUrl := jsOrStr env.strapiUrl "http://localhost:1337"
      apiToken := env.apiToken
      adminEmail := env.adminEmail
      adminPassword := env.adminPassword
      jwtToken := none
      tokenExpiry := none }

/-- C7: with no (truthy) API token and not both admin credentials set, the
constructor exits with status 1 before serving anything; with an API token
or both credentials it proceeds, and the backend URL defaults to
http://localhost:1337 when STRAPI_URL is unset. -/
theorem C7_startup_credentials :
    ∀ (env : Env),
      (strTruthy env.apiToken = false →
        ¬(strTruthy env.adminEmail = true ∧ strTruthy env.adminPassword = true) →
        startup env = none) ∧
      (strTruthy env.apiToken = true ∨
          (strTruthy env.adminEmail = true ∧ strTruthy env.adminPassword = true) →
        ∃ cfg, startup env = some cfg ∧
          cfg.apiToken = env.apiToken ∧
          cfg.jwtToken = none ∧ cfg.tokenExpiry = none ∧
          (env.strapiUrl = none → cfg.strapiUrl = "http://localhost:1337")) := by
  intro env
  constructor
  · intro h1 h2
    unfold startup
    rw [if_pos]
    simp only [h1, Bool.not_false, Bool.true_and]
    rcases Bool.eq_false_or_eq_true (strTruthy env.adminEmail) with he | he
    · rcases Bool.eq_false_or_eq_true (strTruthy env.adminPassword) with hp | hp
      · exact absurd ⟨he, hp⟩ h2
      · simp [hp]
    · simp [he]
  · intro h
    unfold startup
    rw [if_neg]
    · refine ⟨_, rfl, rfl, rfl, rfl, ?_⟩
      intro hu
      simp [jsOrStr, hu]
    · rcases h with h | ⟨h1, h2⟩
      · simp [h]
      · simp [h1, h2]

/-- Witness for C7: construction fails with no credentials at all and
succeeds with admin credentials only, defaulting the URL. -/
theorem C7_startup_witness :
    startup { strapiUrl := none, apiToken := none, adminEmail := none, adminPassword := none } = none ∧
      ∃ cfg, startup { strapiUrl := none, apiToken := none, adminEmail := some "a@b.c", adminPassword := some "pw" } = some cfg ∧ cfg.strapiUrl = "http://localhost:1337" := by
  constructor
  · exact (C7_startup_credentials { strapiUrl := none, apiToken := none, adminEmail := none, adminPassword := none }).1 rfl (by decide)
  · obtain ⟨cfg, hcfg, _, _, _, hurl⟩ := (C7_startup_credentials { strapiUrl := none, apiToken := none, adminEmail := some "a@b.c", adminPassword := some "pw" }).2 (Or.inr ⟨rfl, rfl⟩)
    exact ⟨cfg, hcfg, hurl rfl⟩

/-! ## One backend call per tool invocation (C8) -/

/-- The publish/unpublish action selector:
`args.publish !== false ? 'publish' : 'unpublish'`. -/
def publishAction (publishArg : Option Bool) : String :=
  if publishArg = some false then "unpublish" else "publish"

/-- The method and path of the single axios call made by each tool handler
(docId is args.document_id; publishArg is args.publish). -/
def toolRequestSig (t : ToolName) (docId : String) (publishArg : Option Bool) :
    String × String :=
  match t with
  | ToolName.createBlogPost =>
      ("POST", "/content-manager/collection-types/api::blog-post.blog-post")
  | ToolName.listBlogPosts =>
      ("GET", "/content-manager/collection-types/api::blog-post.blog-post")
  | ToolName.getBlogPost =>
      ("GET", "/content-manager/collection-types/api::blog-post.blog-post/" ++ docId)
  | ToolName.updateBlogPostTool =>
      ("PUT", "/content-manager/collection-types/api::blog-post.blog-post/" ++ docId)
  | ToolName.publishBlogPost =>
      ("POST", "/content-manager/collection-types/api::blog-post.blog-post/" ++ docId
        ++ "/actions/" ++ publishAction publishArg)
  | ToolName.listAuthors =>
      ("GET", "/content-manager/collection-types/api::author.author")
  | ToolName.listCategories =>
      ("GET", "/content-manager/collection-types/api::category.category")
  | ToolName.listTags =>
      ("GET", "/content-manager/collection-types/api::tag.tag")
  | ToolName.createTutorial =>
      ("POST", "/content-manager/collection-types/api::tutorial.tutorial")
  | ToolName.listTutorials =>
      ("GET", "/content-manager/collection-types/api::tutorial.tutorial")
  | ToolName.getTutorial =>
      ("GET", "/content-manager/collection-types/api::tutorial.tutorial/" ++ docId)
  | ToolName.updateTutorialTool =>
      ("PUT", "/content-manager/collection-types/api::tutorial.tutorial/" ++ docId)
  | ToolName.publishTutorial =>
      ("POST", "/content-manager/collection-types/api::tutorial.tutorial/" ++ docId
        ++ "/actions/" ++ publishAction publishArg)
  | ToolName.createEvent =>
      ("POST", "/content-manager/collection-types/api::event.event")
  | ToolName.listEvents =>
      ("GET", "/content-manager/collection-types/api::event.event")
  | ToolName.getEvent =>
      ("GET", "/content-manager/collection-types/api::event.event/" ++ docId)
  | ToolName.updateEventTool =>
      ("PUT", "/content-manager/collection-types/api::event.event/" ++ docId)
  | ToolName.publishEvent =>
      ("POST", "/content-manager/collection-types/api::event.event/" ++ docId
        ++ "/actions/" ++ publishAction publishArg)

/-- A backend HTTP call observed during one call-tool request: the admin
login, or the tool handler's single content call. -/
inductive CallKind where
  | loginReq
  | backendReq (sig : String × String)
deriving Repr, DecidableEq

def CallKind.isLogin : CallKind → Bool
  | CallKind.loginReq => true
  | CallKind.backendReq _ => false

/-- The sequence of backend HTTP calls one call-tool request produces:
whatever authenticate issues (at most one login), then — if authentication
succeeded and the name is known — the handler's single request.  The
handler sends its one request before any failure can be observed, and
nothing is ever retried. -/
def callToolTrace (st : AuthState) (now : Int) (login : LoginOutcome)
    (name : String) (docId : String) (publishArg : Option Bool) : List CallKind :=
  let a := authenticate st now login
  let authCalls := if a.loggedIn then [CallKind.loginReq] else []
  match a.result with
  | Except.error _ => authCalls
  | Except.ok _ =>
    match parseToolName name with
    | none => authCalls
    | some t => authCalls ++ [CallKind.backendReq (toolRequestSig t docId publishArg)]

/-- C8: one call-tool request issues at most one login and at most one
backend content call; when authentication succeeds and the name is a known
tool, it issues exactly one backend content call — whatever the login
outcome and whether or not the backend call itself then fails, nothing is
reissued. -/
theorem C8_one_backend_call :
    ∀ (st : AuthState) (now : Int) (login : LoginOutcome)
      (name : String) (docId : String) (publishArg : Option Bool),
      ((callToolTrace st now login name docId publishArg).filter CallKind.isLogin).length ≤ 1 ∧
      ((callToolTrace st now login name docId publishArg).filter
        (fun c => !c.isLogin)).length ≤ 1 ∧
      (∀ tok t, (authenticate st now login).result = Except.ok tok →
        parseToolName name = some t →
        ((callToolTrace st now login name docId publishArg).filter
          (fun c => !c.isLogin)) = [CallKind.backendReq (toolRequestSig t docId publishArg)]) ∧
      (∀ msg, (authenticate st now login).result = Except.error msg →
        ((callToolTrace st now login name docId publishArg).filter
          (fun c => !c.isLogin)) = []) := by
  intro st now login name docId publishArg
  refine ⟨?_, ?_, ?_, ?_⟩
  · unfold callToolTrace
    cases hr : (authenticate st now login).result with
    | error msg =>
      cases hl : (authenticate st now login).loggedIn <;>
        simp [hr, hl, CallKind.isLogin]
    | ok tok =>
      cases hp : parseToolName name with
      | none =>
        cases hl : (authenticate st now login).loggedIn <;>
          simp [hr, hl, hp, CallKind.isLogin]
      | some t =>
        cases hl : (authenticate st now login).loggedIn <;>
          simp [hr, hl, hp, CallKind.isLogin]
  · unfold callToolTrace
    cases hr : (authenticate st now login).result with
    | error msg =>
      cases hl : (authenticate st now login).loggedIn <;>
        simp [hr, hl, CallKind.isLogin]
    | ok tok =>
      cases hp : parseToolName name with
      | none =>
        cases hl : (authenticate st now login).loggedIn <;>
          simp [hr, hl, hp, CallKind.isLogin]
      | some t =>
        cases hl : (authenticate st now login).loggedIn <;>
          simp [hr, hl, hp, CallKind.isLogin]
  · intro tok t hr hp
    unfold callToolTrace
    cases hl : (authenticate st now login).loggedIn <;>
      simp [hr, hl, hp, CallKind.isLogin]
  · intro msg hr
    unfold callToolTrace
    cases hl : (authenticate st now login).loggedIn <;>
      simp [hr, hl, CallKind.isLogin]

/-- Witness for C8: a cached-token state calling strapi_get_event produces
exactly the one GET on the event document and no login. -/
theorem C8_one_backend_call_witness :
    ((callToolTrace { apiToken := some "api", jwtToken := none, tokenExpiry := none } 0 (LoginOutcome.success "t") "strapi_get_event" "d1" none).filter (fun c => !c.isLogin)) = [CallKind.backendReq ("GET", "/content-manager/collection-types/api::event.event/d1")] ∧
      ((callToolTrace { apiToken := some "api", jwtToken := none, tokenExpiry := none } 0 (LoginOutcome.success "t") "strapi_get_event" "d1" none).filter CallKind.isLogin).length ≤ 1 :=
  ⟨(C8_one_backend_call { apiToken := some "api", jwtToken := none, tokenExpiry := none } 0 (LoginOutcome.success "t") "strapi_get_event" "d1" none).2.2.1 "api" ToolName.getEvent rfl (by decide),
   (C8_one_backend_call { apiToken := some "api", jwtToken := none, tokenExpiry := none } 0 (LoginOutcome.success "t") "strapi_get_event" "d1" none).1⟩

/-! ## Summary-mode response trimming (C6) -/

/-- A JSON value as handled by the summarisers (undef models a missing
property, distinct from JSON null). -/
inductive Json where
  | undef
  | null
  | jbool (b : Bool)
  | jnum (n : Int)
  | jstr (s : String)
  | jarr (xs : List Json)
  | jobj (fields : List (String × Json))

/-- Property access `j[k]`: a missing key (or a non-object) gives undefined. -/
def Json.get (j : Json) (k : String) : Json :=
  match j with
  | Json.jobj fs =>
    match fs.find? (fun q => q.1 == k) with
    | some q => q.2
    | none => Json.undef
  | _ => Json.undef

/-- JavaScript truthiness of a JSON value. -/
def Json.truthy : Json → Bool
  | Json.undef => false
  | Json.null => false
  | Json.jbool b => b
  | Json.jnum n => n != 0
  | Json.jstr s => s != ""
  | Json.jarr _ => true
  | Json.jobj _ => true

/-- null or undefined (property access on these throws). -/
def Json.nullish : Json → Bool
  | Json.undef => true
  | Json.null => true
  | _ => false

/-- `Array.prototype.map` with a callback that may throw: the first throwing
element aborts the whole map. -/
def optionMapList (f : Json → Option Json) : List Json → Option (List Json)
  | [] => some []
  | x :: xs =>
    match f x, optionMapList f xs with
    | some y, some ys => some (y :: ys)
    | _, _ => none

/-- `x && x.length > 500 ? x.substring(0, 500) + '...' : x`: a string longer
than 500 characters is truncated; an array of more than 500 elements — and
an object whose length property is a number above 500 — passes the length
comparison but has no substring method, so the code throws a TypeError
(none); every other value fails the comparison (its length is undefined or
too small) and passes through unchanged.  (A length property that is not a
number would be compared through JavaScript numeric coercion, which the
model does not reproduce; such a value passes through here.) -/
def truncateLarge (j : Json) : Option Json :=
  match j with
  | Json.jstr s =>
      if 500 < s.data.length then some (Json.jstr (String.mk (s.data.take 500) ++ "..."))
      else some (Json.jstr s)
  | Json.jarr xs => if 500 < xs.length then none else some (Json.jarr xs)
  | Json.jobj fs =>
      match (Json.jobj fs).get "length" with
      | Json.jnum n => if 500 < n then none else some (Json.jobj fs)
      | _ => some (Json.jobj fs)
  | j2 => some j2

/-- `rel ? { id: rel.id, name: rel.name } : null`. -/
def relSummary (j : Json) : Json :=
  if j.truthy then Json.jobj [("id", j.get "id"), ("name", j.get "name")]
  else Json.null

/-- One element of `item.tags.map(tag => ({ id: tag.id, name: tag.name }))`:
reading tag.id of a null or undefined element throws (none). -/
def tagSummary (tg : Json) : Option Json :=
  if tg.nullish then none
  else some (Json.jobj [("id", tg.get "id"), ("name", tg.get "name")])

/-- `item.tags ? item.tags.map(tag => ({id, name})) : []`; mapping over a
truthy non-array throws, as does a nullish element. -/
def tagsSummary (j : Json) : Option Json :=
  if j.truthy then
    match j with
    | Json.jarr xs =>
      match optionMapList tagSummary xs with
      | some ys => some (Json.jarr ys)
      | none => none
    | _ => none
  else some (Json.jarr [])

/-- The per-item summary of listBlogPosts: the retained fields in source
order; content is never copied; a nullish item, a thrown excerpt truncation,
or a thrown tags map aborts the summary (none). -/
def summarizeBlogItem (item : Json) : Option Json :=
  if item.nullish then none
  else
    match truncateLarge (item.get "excerpt"), tagsSummary (item.get "tags") with
    | some exc, some tagsJ =>
      some (Json.jobj
        [("id", item.get "id"),
         ("documentId", item.get "documentId"),
         ("title", item.get "title"),
         ("slug", item.get "slug"),
         ("excerpt", exc),
         ("reading_time", item.get "reading_time"),
         ("published_date", item.get "published_date"),
         ("publishedAt", item.get "publishedAt"),
         ("createdAt", item.get "createdAt"),
         ("updatedAt", item.get "updatedAt"),
         ("author", relSummary (item.get "author")),
         ("category", relSummary (item.get "category")),
         ("tags", tagsJ)])
    | _, _ => none

/-- The per-item summary of listTutorials. -/
def summarizeTutorialItem (item : Json) : Option Json :=
  if item.nullish then none
  else
    match truncateLarge (item.get "description"), tagsSummary (item.get "tags") with
    | some desc, some tagsJ =>
      some (Json.jobj
        [("id", item.get "id"),
         ("documentId", item.get "documentId"),
         ("title", item.get "title"),
         ("slug", item.get "slug"),
         ("description", desc),
         ("difficulty", item.get "difficulty"),
         ("duration", item.get "duration"),
         ("publishedAt", item.get "publishedAt"),
         ("createdAt", item.get "createdAt"),
         ("updatedAt", item.get "updatedAt"),
         ("author", relSummary (item.get "author")),
         ("category", relSummary (item.get "category")),
         ("tags", tagsJ)])
    | _, _ => none

/-- The per-item summary of listEvents: no relations, no truncation, and the
large description field is not copied at all. -/
def summarizeEventItem (item : Json) : Option Json :=
  if item.nullish then none
  else
    some (Json.jobj
      [("id", item.get "id"),
       ("documentId", item.get "documentId"),
       ("title", item.get "title"),
       ("slug", item.get "slug"),
       ("event_type", item.get "event_type"),
       ("start_date", item.get "start_date"),
       ("end_date", item.get "end_date"),
       ("location", item.get "location"),
       ("registration_url", item.get "registration_url"),
       ("max_attendees", item.get "max_attendees"),
       ("publishedAt", item.get "publishedAt"),
       ("createdAt", item.get "createdAt"),
       ("updatedAt", item.get "updatedAt")])

/-- `const { summary = true } = args` followed by the `if (summary ...)`
test. -/
def summaryEffective (summaryArg : Option Bool) : Bool :=
  summaryArg.getD true

/-- The body listBlogPosts stringifies and returns: summary mode maps the
results and passes pagination through; otherwise the backend body is
returned unmodified; none models a thrown TypeError (truthy non-array
results, or a throwing item summary), which the dispatch boundary turns
into an error result. -/
def listBlogPostsPayload (summaryArg : Option Bool) (respData : Json) : Option Json :=
  if summaryEffective summaryArg && (respData.get "results").truthy then
    match respData.get "results" with
    | Json.jarr items =>
      match optionMapList summarizeBlogItem items with
      | some outs =>
          some (Json.jobj [("results", Json.jarr outs),
                           ("pagination", respData.get "pagination")])
      | none => none
    | _ => none
  else some respData

/-- The body listTutorials stringifies and returns. -/
def listTutorialsPayload (summaryArg : Option Bool) (respData : Json) : Option Json :=
  if summaryEffective summaryArg && (respData.get "results").truthy then
    match respData.get "results" with
    | Json.jarr items =>
      match optionMapList summarizeTutorialItem items with
      | some outs =>
          some (Json.jobj [("results", Json.jarr outs),
                           ("pagination", respData.get "pagination")])
      | none => none
    | _ => none
  else some respData

/-- The body listEvents stringifies and returns. -/
def listEventsPayload (summaryArg : Option Bool) (respData : Json) : Option Json :=
  if summaryEffective summaryArg && (respData.get "results").truthy then
    match respData.get "results" with
    | Json.jarr items =>
      match optionMapList summarizeEventItem items with
      | some outs =>
          some (Json.jobj [("results", Json.jarr outs),
                           ("pagination", respData.get "pagination")])
      | none => none
    | _ => none
  else some respData

theorem summaryEffective_of_ne {o : Option Bool} (h : o ≠ some false) :
    summaryEffective o = true := by
  cases o with
  | none => rfl
  | some b =>
    cases b with
    | false => exact absurd rfl h
    | true => rfl

theorem optionMapList_isSome_of {f : Json → Option Json} :
    ∀ {xs : List Json}, (∀ x ∈ xs, (f x).isSome = true) →
      ∃ ys, optionMapList f xs = some ys := by
  intro xs
  induction xs with
  | nil => intro _; exact ⟨[], rfl⟩
  | cons a t ih =>
    intro h
    obtain ⟨y, hy⟩ := Option.isSome_iff_exists.mp (h a (List.mem_cons_self a t))
    obtain ⟨ys, hys⟩ := ih (fun x hx => h x (List.mem_cons_of_mem a hx))
    exact ⟨y :: ys, by simp [optionMapList, hy, hys]⟩

theorem optionMapList_eq_map {f : Json → Option Json} {g : Json → Json} :
    ∀ (xs : List Json), (∀ x ∈ xs, f x = some (g x)) →
      optionMapList f xs = some (xs.map g) := by
  intro xs
  induction xs with
  | nil => intro _; rfl
  | cons a t ih =>
    intro h
    have ha := h a (List.mem_cons_self a t)
    have ht := ih (fun x hx => h x (List.mem_cons_of_mem a hx))
    simp [optionMapList, ha, ht]

theorem optionMapList_none_of_mem {f : Json → Option Json} :
    ∀ {xs : List Json} {x : Json}, x ∈ xs → f x = none →
      optionMapList f xs = none := by
  intro xs
  induction xs with
  | nil => intro x hx _; simp at hx
  | cons a t ih =>
    intro x hx hfx
    rcases List.mem_cons.mp hx with h1 | h1
    · subst h1
      simp [optionMapList, hfx]
    · have h2 := ih h1 hfx
      cases hfa : f a <;> simp [optionMapList, hfa, h2]

theorem summarizeBlogItem_isSome {item : Json}
    (h1 : item.nullish = false)
    (h2 : (truncateLarge (item.get "excerpt")).isSome = true)
    (h3 : (tagsSummary (item.get "tags")).isSome = true) :
    (summarizeBlogItem item).isSome = true := by
  obtain ⟨e, he⟩ := Option.isSome_iff_exists.mp h2
  obtain ⟨tj, htj⟩ := Option.isSome_iff_exists.mp h3
  simp [summarizeBlogItem, h1, he, htj]

theorem summarizeTutorialItem_isSome {item : Json}
    (h1 : item.nullish = false)
    (h2 : (truncateLarge (item.get "description")).isSome = true)
    (h3 : (tagsSummary (item.get "tags")).isSome = true) :
    (summarizeTutorialItem item).isSome = true := by
  obtain ⟨e, he⟩ := Option.isSome_iff_exists.mp h2
  obtain ⟨tj, htj⟩ := Option.isSome_iff_exists.mp h3
  simp [summarizeTutorialItem, h1, he, htj]

theorem summarizeEventItem_isSome {item : Json} (h1 : item.nullish = false) :
    (summarizeEventItem item).isSome = true := by
  simp [summarizeEventItem, h1]

/-- C6: when the summary argument is not false and the backend body holds a
results array of well-behaved items, each list operation returns the mapped
results with the pagination object passed through unchanged; each summarised
blog/tutorial item omits the content field, truncates the retained
excerpt/description to 500 characters plus an ellipsis only when longer than
500, and reduces the author, category, and tag relations to id and name; a
summarised event item omits the description; items on which the code throws
(a >500-element array excerpt, a null tag element) abort summarisation and
fall to the error boundary instead of producing a normal result; and when
summary is false the backend body is returned unmodified. -/
theorem C6_summary_trimming :
    ∀ (summaryArg : Option Bool) (respData : Json) (items : List Json),
      respData.get "results" = Json.jarr items →
      (summaryArg = some false →
        listBlogPostsPayload summaryArg respData = some respData ∧
        listTutorialsPayload summaryArg respData = some respData ∧
        listEventsPayload summaryArg respData = some respData) ∧
      (summaryArg ≠ some false →
        ((∀ it ∈ items, it.nullish = false ∧
            (truncateLarge (it.get "excerpt")).isSome = true ∧
            (tagsSummary (it.get "tags")).isSome = true) →
          ∃ outs, optionMapList summarizeBlogItem items = some outs ∧
            listBlogPostsPayload summaryArg respData =
              some (Json.jobj [("results", Json.jarr outs),
                               ("pagination", respData.get "pagination")])) ∧
        ((∀ it ∈ items, it.nullish = false ∧
            (truncateLarge (it.get "description")).isSome = true ∧
            (tagsSummary (it.get "tags")).isSome = true) →
          ∃ outs, optionMapList summarizeTutorialItem items = some outs ∧
            listTutorialsPayload summaryArg respData =
              some (Json.jobj [("results", Json.jarr outs),
                               ("pagination", respData.get "pagination")])) ∧
        ((∀ it ∈ items, it.nullish = false) →
          ∃ outs, optionMapList summarizeEventItem items = some outs ∧
            listEventsPayload summaryArg respData =
              some (Json.jobj [("results", Json.jarr outs),
                               ("pagination", respData.get "pagination")])) ∧
        (∀ it ∈ items, summarizeBlogItem it = none →
          listBlogPostsPayload summaryArg respData = none) ∧
        (∀ it ∈ items, summarizeTutorialItem it = none →
          listTutorialsPayload summaryArg respData = none)) ∧
      (∀ item outItem, summarizeBlogItem item = some outItem →
        outItem.get "content" = Json.undef ∧
        (∃ exc, truncateLarge (item.get "excerpt") = some exc ∧
          outItem.get "excerpt" = exc) ∧
        outItem.get "author" = relSummary (item.get "author") ∧
        outItem.get "category" = relSummary (item.get "category") ∧
        (∃ tagsJ, tagsSummary (item.get "tags") = some tagsJ ∧
          outItem.get "tags" = tagsJ)) ∧
      (∀ item outItem, summarizeTutorialItem item = some outItem →
        outItem.get "content" = Json.undef ∧
        (∃ desc, truncateLarge (item.get "description") = some desc ∧
          outItem.get "description" = desc) ∧
        outItem.get "author" = relSummary (item.get "author") ∧
        outItem.get "category" = relSummary (item.get "category") ∧
        (∃ tagsJ, tagsSummary (item.get "tags") = some tagsJ ∧
          outItem.get "tags" = tagsJ)) ∧
      (∀ item outItem, summarizeEventItem item = some outItem →
        outItem.get "description" = Json.undef) ∧
      (∀ (str str2 : String),
        truncateLarge (Json.jstr str) = some (Json.jstr str2) →
        str2.data.length ≤ 503 ∧
        (str.data.length ≤ 500 → str2 = str) ∧
        (500 < str.data.length →
          str2 = String.mk (str.data.take 500) ++ "...")) ∧
      (∀ xs : List Json, 500 < xs.length →
        truncateLarge (Json.jarr xs) = none) ∧
      (∀ j, j.truthy = true →
        relSummary j = Json.jobj [("id", j.get "id"), ("name", j.get "name")]) ∧
      (∀ xs : List Json, (∀ tg ∈ xs, tg.nullish = false) →
        tagsSummary (Json.jarr xs) =
          some (Json.jarr (xs.map (fun tg =>
            Json.jobj [("id", tg.get "id"), ("name", tg.get "name")])))) ∧
      (∀ (xs : List Json) (tg : Json), tg ∈ xs → tg.nullish = true →
        tagsSummary (Json.jarr xs) = none) := by
  intro summaryArg respData items hres
  refine ⟨?_, ?_, ?_, ?_, ?_, ?_, ?_, ?_, ?_, ?_⟩
  · intro h
    subst h
    refine ⟨?_, ?_, ?_⟩ <;>
      simp [listBlogPostsPayload, listTutorialsPayload, listEventsPayload,
        summaryEffective]
  · intro hne
    have hse := summaryEffective_of_ne hne
    refine ⟨?_, ?_, ?_, ?_, ?_⟩
    · intro hitems
      obtain ⟨outs, houts⟩ := optionMapList_isSome_of
        (f := summarizeBlogItem)
        (fun x hx => summarizeBlogItem_isSome (hitems x hx).1 (hitems x hx).2.1
          (hitems x hx).2.2)
      exact ⟨outs, houts,
        by simp [listBlogPostsPayload, hres, hse, Json.truthy, houts]⟩
    · intro hitems
      obtain ⟨outs, houts⟩ := optionMapList_isSome_of
        (f := summarizeTutorialItem)
        (fun x hx => summarizeTutorialItem_isSome (hitems x hx).1 (hitems x hx).2.1
          (hitems x hx).2.2)
      exact ⟨outs, houts,
        by simp [listTutorialsPayload, hres, hse, Json.truthy, houts]⟩
    · intro hitems
      obtain ⟨outs, houts⟩ := optionMapList_isSome_of
        (f := summarizeEventItem)
        (fun x hx => summarizeEventItem_isSome (hitems x hx))
      exact ⟨outs, houts,
        by simp [listEventsPayload, hres, hse, Json.truthy, houts]⟩
    · intro it hit hnone
      have h0 := optionMapList_none_of_mem hit hnone
      simp [listBlogPostsPayload, hres, hse, Json.truthy, h0]
    · intro it hit hnone
      have h0 := optionMapList_none_of_mem hit hnone
      simp [listTutorialsPayload, hres, hse, Json.truthy, h0]
  · intro item outItem h
    unfold summarizeBlogItem at h
    by_cases hn : item.nullish = true
    · rw [if_pos hn] at h
      simp at h
    · rw [if_neg hn] at h
      cases he : truncateLarge (item.get "excerpt") with
      | none => rw [he] at h; simp at h
      | some exc =>
        cases ht : tagsSummary (item.get "tags") with
        | none => rw [he, ht] at h; simp at h
        | some tj =>
          rw [he, ht] at h
          have h2 := Option.some.inj h
          subst h2
          exact ⟨rfl, ⟨exc, rfl, rfl⟩, rfl, rfl, ⟨tj, rfl, rfl⟩⟩
  · intro item outItem h
    unfold summarizeTutorialItem at h
    by_cases hn : item.nullish = true
    · rw [if_pos hn] at h
      simp at h
    · rw [if_neg hn] at h
      cases he : truncateLarge (item.get "description") with
      | none => rw [he] at h; simp at h
      | some desc =>
        cases ht : tagsSummary (item.get "tags") with
        | none => rw [he, ht] at h; simp at h
        | some tj =>
          rw [he, ht] at h
          have h2 := Option.some.inj h
          subst h2
          exact ⟨rfl, ⟨desc, rfl, rfl⟩, rfl, rfl, ⟨tj, rfl, rfl⟩⟩
  · intro item outItem h
    unfold summarizeEventItem at h
    by_cases hn : item.nullish = true
    · rw [if_pos hn] at h
      simp at h
    · rw [if_neg hn] at h
      have h2 := Option.some.inj h
      subst h2
      rfl
  · intro str str2 h
    have h0 : (if 500 < str.data.length then
        some (Json.jstr (String.mk (str.data.take 500) ++ "..."))
        else some (Json.jstr str)) = some (Json.jstr str2) := h
    by_cases hl : 500 < str.data.length
    · rw [if_pos hl] at h0
      have h2 := (Json.jstr.injEq _ _).mp (Option.some.inj h0)
      subst h2
      refine ⟨?_, ?_, ?_⟩
      · have hd : (String.mk (str.data.take 500) ++ "...").data =
            str.data.take 500 ++ "...".data := rfl
        rw [hd, List.length_append, List.length_take]
        simp
      · intro hle
        omega
      · intro _
        rfl
    · rw [if_neg hl] at h0
      have h2 := (Json.jstr.injEq _ _).mp (Option.some.inj h0)
      subst h2
      refine ⟨by omega, fun _ => rfl, fun hgt => absurd hgt hl⟩
  · intro xs hxs
    have h0 : truncateLarge (Json.jarr xs) =
        if 500 < xs.length then none else some (Json.jarr xs) := rfl
    rw [h0, if_pos hxs]
  · intro j h
    simp [relSummary, h]
  · intro xs hxs
    have hmap := optionMapList_eq_map
      (f := tagSummary)
      (g := fun tg => Json.jobj [("id", tg.get "id"), ("name", tg.get "name")])
      xs (fun x hx => by simp [tagSummary, hxs x hx])
    simp [tagsSummary, Json.truthy, hmap]
  · intro xs tg htg hnull
    have h0 := optionMapList_none_of_mem (f := tagSummary) htg
      (by simp [tagSummary, hnull])
    simp [tagsSummary, Json.truthy, h0]

/-- Witness for C6: a one-item backend body (with one tag relation), in full mode and in summary mode, plus the thrown-truncation fact at a concrete oversized array. -/
theorem C6_summary_witness :
    listBlogPostsPayload (some false) (Json.jobj [("results", Json.jarr [Json.jobj [("id", Json.jnum 1), ("title", Json.jstr "T"), ("content", Json.jstr "big"), ("excerpt", Json.jstr "e"), ("tags", Json.jarr [Json.jobj [("id", Json.jnum 7), ("name", Json.jstr "tag"), ("color", Json.jstr "red")]]), ("author", Json.null)]]), ("pagination", Json.jobj [("page", Json.jnum 1)])]) = some (Json.jobj [("results", Json.jarr [Json.jobj [("id", Json.jnum 1), ("title", Json.jstr "T"), ("content", Json.jstr "big"), ("excerpt", Json.jstr "e"), ("tags", Json.jarr [Json.jobj [("id", Json.jnum 7), ("name", Json.jstr "tag"), ("color", Json.jstr "red")]]), ("author", Json.null)]]), ("pagination", Json.jobj [("page", Json.jnum 1)])]) ∧
      (∃ outs, optionMapList summarizeBlogItem [Json.jobj [("id", Json.jnum 1), ("title", Json.jstr "T"), ("content", Json.jstr "big"), ("excerpt", Json.jstr "e"), ("tags", Json.jarr [Json.jobj [("id", Json.jnum 7), ("name", Json.jstr "tag"), ("color", Json.jstr "red")]]), ("author", Json.null)]] = some outs ∧ listBlogPostsPayload none (Json.jobj [("results", Json.jarr [Json.jobj [("id", Json.jnum 1), ("title", Json.jstr "T"), ("content", Json.jstr "big"), ("excerpt", Json.jstr "e"), ("tags", Json.jarr [Json.jobj [("id", Json.jnum 7), ("name", Json.jstr "tag"), ("color", Json.jstr "red")]]), ("author", Json.null)]]), ("pagination", Json.jobj [("page", Json.jnum 1)])]) = some (Json.jobj [("results", Json.jarr outs), ("pagination", (Json.jobj [("results", Json.jarr [Json.jobj [("id", Json.jnum 1), ("title", Json.jstr "T"), ("content", Json.jstr "big"), ("excerpt", Json.jstr "e"), ("tags", Json.jarr [Json.jobj [("id", Json.jnum 7), ("name", Json.jstr "tag"), ("color", Json.jstr "red")]]), ("author", Json.null)]]), ("pagination", Json.jobj [("page", Json.jnum 1)])]).get "pagination")])) ∧
      truncateLarge (Json.jarr (List.replicate 501 Json.null)) = none ∧
      tagsSummary (Json.jarr [Json.jobj [("id", Json.jnum 7), ("name", Json.jstr "tag"), ("color", Json.jstr "red")]]) = some (Json.jarr [Json.jobj [("id", Json.jnum 7), ("name", Json.jstr "tag")]]) := by
  have T := C6_summary_trimming (some false) (Json.jobj [("results", Json.jarr [Json.jobj [("id", Json.jnum 1), ("title", Json.jstr "T"), ("content", Json.jstr "big"), ("excerpt", Json.jstr "e"), ("tags", Json.jarr [Json.jobj [("id", Json.jnum 7), ("name", Json.jstr "tag"), ("color", Json.jstr "red")]]), ("author", Json.null)]]), ("pagination", Json.jobj [("page", Json.jnum 1)])]) [Json.jobj [("id", Json.jnum 1), ("title", Json.jstr "T"), ("content", Json.jstr "big"), ("excerpt", Json.jstr "e"), ("tags", Json.jarr [Json.jobj [("id", Json.jnum 7), ("name", Json.jstr "tag"), ("color", Json.jstr "red")]]), ("author", Json.null)]] rfl
  have U := C6_summary_trimming none (Json.jobj [("results", Json.jarr [Json.jobj [("id", Json.jnum 1), ("title", Json.jstr "T"), ("content", Json.jstr "big"), ("excerpt", Json.jstr "e"), ("tags", Json.jarr [Json.jobj [("id", Json.jnum 7), ("name", Json.jstr "tag"), ("color", Json.jstr "red")]]), ("author", Json.null)]]), ("pagination", Json.jobj [("page", Json.jnum 1)])]) [Json.jobj [("id", Json.jnum 1), ("title", Json.jstr "T"), ("content", Json.jstr "big"), ("excerpt", Json.jstr "e"), ("tags", Json.jarr [Json.jobj [("id", Json.jnum 7), ("name", Json.jstr "tag"), ("color", Json.jstr "red")]]), ("author", Json.null)]] rfl
  refine ⟨(T.1 rfl).1, ?_, ?_, ?_⟩
  · have hitems : ∀ it ∈ [Json.jobj [("id", Json.jnum 1), ("title", Json.jstr "T"), ("content", Json.jstr "big"), ("excerpt", Json.jstr "e"), ("tags", Json.jarr [Json.jobj [("id", Json.jnum 7), ("name", Json.jstr "tag"), ("color", Json.jstr "red")]]), ("author", Json.null)]], it.nullish = false ∧ (truncateLarge (it.get "excerpt")).isSome = true ∧ (tagsSummary (it.get "tags")).isSome = true := by
      intro it hit
      rw [List.mem_singleton] at hit
      subst hit
      exact ⟨rfl, rfl, rfl⟩
    exact ((U.2.1 (by simp)).1 hitems)
  · exact U.2.2.2.2.2.2.1 (List.replicate 501 Json.null) (by rw [List.length_replicate]; omega)
  · have hclean : ∀ tg ∈ [Json.jobj [("id", Json.jnum 7), ("name", Json.jstr "tag"), ("color", Json.jstr "red")]], tg.nullish = false := by
      intro tg htg
      rw [List.mem_singleton] at htg
      subst htg
      rfl
    exact U.2.2.2.2.2.2.2.2.1 [Json.jobj [("id", Json.jnum 7), ("name", Json.jstr "tag"), ("color", Json.jstr "red")]] hclean

end StrapiMcp

